import Mathlib

/-!
Shallow embedding of the calculator repository (app/operations.py,
app/calculatorOperations.py, and the history engine of the specification)
for checking the specification claims.

Modelling conventions:
- Python Decimal values are modelled as exact rationals.  All claims under
  scrutiny concern control flow, error kinds, serialization keys and history
  bookkeeping, none of which depend on rounding of decimal division; decimal
  string round-trips are exact in Python and are modelled by carrying the
  parsed value.
- Python exceptions are modelled by an explicit error type returned through
  Except.  Exception messages are carried as strings; str(KeyError(k))
  decorates k with quote marks, which the model omits.
- Expressions routed through binary floating point, Decimal(pow(float(x),
  float(y))), are modelled by floatPow below; no claim depends on the value
  it returns, only on which branch of the surrounding dispatch is taken.
-/

/-- Error kinds raised by the embedded code, mirroring exceptions.py
(ValidationError, OperationError) together with the built-in Python
exceptions the source can raise (TypeError, ValueError, AttributeError,
and the decimal module arithmetic error used for division by zero). -/
inductive PyError where
  | validationError (msg : String)
  | operationError (msg : String)
  | typeError (msg : String)
  | valueError (msg : String)
  | attributeError (msg : String)
  | arithmeticError (msg : String)
deriving DecidableEq

/-- Predicate selecting the OperationError kind of exceptions.py. -/
def PyError.isOperationError : PyError → Bool
  | .operationError _ => true
  | _ => false

instance {ε α : Type} [DecidableEq ε] [DecidableEq α] : DecidableEq (Except ε α) := fun x y =>
  match x, y with
  | .ok a, .ok b =>
      if h : a = b then isTrue (by rw [h])
      else isFalse (fun hc => h (Except.ok.inj hc))
  | .error a, .error b =>
      if h : a = b then isTrue (by rw [h])
      else isFalse (fun hc => h (Except.error.inj hc))
  | .ok _, .error _ => isFalse (fun hc => Except.noConfusion hc)
  | .error _, .ok _ => isFalse (fun hc => Except.noConfusion hc)

/-- Model of the source expression Decimal(pow(float(x), float(y))),
including its error behavior: for a negative base and a non-integer
exponent the builtin pow returns a complex number and Decimal(complex)
raises TypeError; for a zero base and a negative exponent pow raises
ZeroDivisionError, an ArithmeticError.  On the remaining inputs the call
returns a number: the model gives the exact power for integer exponents
and a placeholder for fractional ones, since no claim depends on the
numeric value, only on which branch is taken; float rounding and
float-range OverflowError are outside the exact-rational model. -/
def floatPow (x y : ℚ) : Except PyError ℚ :=
  if x < 0 ∧ y.den ≠ 1 then
    .error (.typeError "conversion from complex to Decimal is not supported")
  else if x = 0 ∧ y < 0 then
    .error (.arithmeticError "0.0 cannot be raised to a negative power")
  else if y.den = 1 then .ok (x ^ y.num) else .ok 0

/-- Embedding of the dataclass calculatorOperations of
app/calculatorOperations.py: one evaluated operation.  The timestamp is
modelled as an integer instant; datetime.isoformat and fromisoformat
round-trip exactly, so the serialized form carries the instant itself. -/
structure calculatorOperations where
  operation : String
  operand1 : ℚ
  operand2 : ℚ
  result : ℚ
  timestamp : Int
deriving DecidableEq

/-- Model of the try/except around the dispatch call in
calculatorOperations.calculate (calculatorOperations.py lines 45 to 48):
InvalidOperation, ValueError and ArithmeticError are converted into
OperationError with a Calculation-failed message; every other exception —
in particular the OperationError raised by the _raise helpers and the
TypeError from the complex-to-Decimal path — propagates unchanged. -/
def calcCatch (r : Except PyError ℚ) : Except PyError ℚ :=
  match r with
  | .ok v => .ok v
  | .error (.arithmeticError m) => .error (.operationError ("Calculation failed: " ++ m))
  | .error (.valueError m) => .error (.operationError ("Calculation failed: " ++ m))
  | .error e => .error e

/-- Embedding of calculatorOperations.calculate (calculatorOperations.py,
lines 26 to 48): name-keyed dispatch over the operation string.  Unknown
names raise OperationError before the try block; each lambda runs inside
the try modelled by calcCatch; the Division, Power and Root lambdas raise
OperationError through the _raise helpers before computing on invalid
domains, and the Power and Root computations go through floatPow, whose
TypeError is not caught by the except clause while its ArithmeticError
is converted into OperationError. -/
def calculatorOperations.calculate (operation : String) (x y : ℚ) : Except PyError ℚ :=
  if operation = "Addition" then calcCatch (.ok (x + y))
  else if operation = "Subtraction" then calcCatch (.ok (x - y))
  else if operation = "Multiplication" then calcCatch (.ok (x * y))
  else if operation = "Division" then
    calcCatch
      (if y ≠ 0 then .ok (x / y)
       else .error (.operationError "Division by zero is not allowed"))
  else if operation = "Power" then
    calcCatch
      (if 0 ≤ y then floatPow x y
       else .error (.operationError "Negative exponents are not supported"))
  else if operation = "Root" then
    calcCatch
      (if 0 ≤ x ∧ y ≠ 0 then floatPow x (1 / y)
       else if y = 0 then .error (.operationError "Zero root is undefined")
       else if x < 0 then .error (.operationError "Cannot calculate root of negative number")
       else .error (.operationError "Invalid root operation"))
  else .error (.operationError ("Unknown Operation: " ++ operation))

/-- Embedding of direct construction of a calculatorOperations value: the
dataclass fields are stored and __post_init__ (lines 22 to 24) assigns
self.result = self.calculate(), propagating any exception calculate
raises. -/
def calculatorOperations.ofInputs (operation : String) (x y : ℚ) (ts : Int) :
    Except PyError calculatorOperations :=
  match calculatorOperations.calculate operation x y with
  | .error e => .error e
  | .ok r => .ok ⟨operation, x, y, r, ts⟩

/-- Embedding of calculatorOperations.__eq__ (lines 146 to 163): structural
equality on operation, operands and result; timestamp excluded. -/
def calculatorOperations.recordEq (a b : calculatorOperations) : Bool :=
  decide (a.operation = b.operation) && decide (a.operand1 = b.operand1) &&
    decide (a.operand2 = b.operand2) && decide (a.result = b.result)

/-- Values stored in a persisted mapping: a raw string, a decimal (carried
as the parsed rational, since Decimal-to-string round-trips exactly), or a
timestamp instant. -/
inductive DVal where
  | str (s : String)
  | num (q : ℚ)
  | time (t : Int)
deriving DecidableEq

/-- Operation-name view of a stored value.  The source stores the operation
field verbatim; a non-string value would compare unequal to every key of
the dispatch table in calculate, which the model renders as a reserved
name matching no table entry. -/
def DVal.asOperationName : DVal → String
  | .str s => s
  | .num _ => "<Decimal value>"
  | .time _ => "<datetime value>"

/-- Decimal parse of a stored value, modelling Decimal(data[k]): a stored
decimal parses to itself, anything else fails (InvalidOperation or
ValueError in the source, folded into OperationError by the enclosing
handler of from_dict). -/
def DVal.asDecimal : DVal → Option ℚ
  | .num q => some q
  | _ => none

/-- Timestamp parse of a stored value, modelling
datetime.datetime.fromisoformat(data[k]); a non-timestamp value fails. -/
def DVal.asTime : DVal → Option Int
  | .time t => some t
  | _ => none

/-- Embedding of calculatorOperations.to_dict (lines 70 to 83).  The source
writes the operation under the misspelled key opperation, with a doubled
p, while the other four keys are spelled as the specification gives them. -/
def calculatorOperations.to_dict (c : calculatorOperations) : List (String × DVal) :=
  [("opperation", .str c.operation),
   ("operand1", .num c.operand1),
   ("operand2", .num c.operand2),
   ("result", .num c.result),
   ("timestamp", .time c.timestamp)]

/-- Embedding of calculatorOperations.from_dict (lines 85 to 121), in the
evaluation order of the source: read data under key operation, parse the
two operands, construct the record (which recomputes the result and may
raise OperationError, not caught by the handler), restore the timestamp,
parse the stored result, and warn without failing when the recomputed
result differs from the stored one.  KeyError, InvalidOperation and
ValueError become OperationError with an Invalid-calculation-data message.
The Bool in the return value records whether the mismatch warning was
logged. -/
def calculatorOperations.from_dict (data : List (String × DVal)) :
    Except PyError (calculatorOperations × Bool) :=
  match data.lookup "operation" with
  | none => .error (.operationError "Invalid calculation data: operation")
  | some opv =>
    match (data.lookup "operand1").bind DVal.asDecimal with
    | none => .error (.operationError "Invalid calculation data: operand1")
    | some x =>
      match (data.lookup "operand2").bind DVal.asDecimal with
      | none => .error (.operationError "Invalid calculation data: operand2")
      | some y =>
        match calculatorOperations.ofInputs opv.asOperationName x y 0 with
        | .error e => .error e
        | .ok c0 =>
          match (data.lookup "timestamp").bind DVal.asTime with
          | none => .error (.operationError "Invalid calculation data: timestamp")
          | some ts =>
            match (data.lookup "result").bind DVal.asDecimal with
            | none => .error (.operationError "Invalid calculation data: result")
            | some saved =>
              .ok ({ c0 with timestamp := ts },
                   if c0.result = saved then false else true)

/-- Canonical well-formed persisted mapping carrying the five fields of the
record serialization shape. -/
def mkData (operation : String) (x y r : ℚ) (ts : Int) : List (String × DVal) :=
  [("operation", .str operation),
   ("operand1", .num x),
   ("operand2", .num y),
   ("result", .num r),
   ("timestamp", .time ts)]

/-- Embedding of the Operation class hierarchy of app/operations.py: the
constructors are the concrete subclasses Addition, Subtraction,
Multiplication, Division, Power and Root. -/
inductive Operation where
  | Addition
  | Subtraction
  | Multiplication
  | Division
  | Power
  | Root
deriving DecidableEq

/-- Embedding of validate_operands as dispatched on the concrete class.
Power (operations.py lines 86 to 90) and Root (lines 100 to 106) override
the base no-op; Addition, Subtraction and Multiplication inherit the base
no-op (lines 27 to 38).  Division defines no validate_operands override:
the zero-divisor check of lines 72 to 76 was written as a duplicate def of
execute and is shadowed by the second def of execute at lines 78 to 81, so
Division also inherits the base no-op. -/
def Operation.validate_operands (k : Operation) (a b : ℚ) : Except PyError Unit :=
  match k with
  | .Power =>
      if b < 0 then .error (.validationError "Negative exponents are not allowed")
      else .ok ()
  | .Root =>
      if a < 0 then .error (.validationError "Root of negative number cannot be calculated")
      else if b = 0 then .error (.validationError "Zero root is undefined")
      else .ok ()
  | _ => .ok ()

/-- Embedding of execute for each concrete class: validate_operands is
called first, then the arithmetic runs with no try/except around it.  For
Division the surviving execute (lines 78 to 81) computes a / b directly;
on b = 0 the Decimal division itself raises decimal.DivisionByZero, an
ArithmeticError, since the shadowed check never runs.  Power and Root go
through floatPow, whose TypeError and ArithmeticError corners propagate
uncaught. -/
def Operation.execute (k : Operation) (a b : ℚ) : Except PyError ℚ := do
  k.validate_operands a b
  match k with
  | .Addition => .ok (a + b)
  | .Subtraction => .ok (a - b)
  | .Multiplication => .ok (a * b)
  | .Division =>
      if b = 0 then .error (.arithmeticError "DivisionByZero") else .ok (a / b)
  | .Power => floatPow a b
  | .Root => floatPow a (1 / b)

/-- Intended display tag of each concrete class: its class name, as the
unit tests of the repository expect from str(op). -/
def Operation.tag : Operation → String
  | .Addition => "Addition"
  | .Subtraction => "Subtraction"
  | .Multiplication => "Multiplication"
  | .Division => "Division"
  | .Power => "Power"
  | .Root => "Root"

/-- Embedding of Operation.__str__ (operations.py lines 40 to 42): the body
returns self._class_._name_, an access to the attribute _class_ spelled
with single underscores; no Operation instance has such an attribute (the
class-object access uses double underscores), so every call raises
AttributeError before producing a string, for every concrete class. -/
def Operation.str (_k : Operation) : Except PyError String :=
  .error (.attributeError "_class_")

/-- Model of a Python class object as the registry sees it: its class name
and whether it is a subclass of Operation (the issubclass check of
register_operation). -/
structure PyClass where
  className : String
  inheritsOperation : Bool
deriving DecidableEq

/-- Python dict assignment d[k] = v on an association list: replace the
binding of k when present, append it otherwise. -/
def dictSet (d : List (String × PyClass)) (k : String) (v : PyClass) :
    List (String × PyClass) :=
  match d with
  | [] => [(k, v)]
  | (k0, v0) :: rest =>
      if k0 = k then (k0, v) :: rest else (k0, v0) :: dictSet rest k v

/-- Embedding of the initial class-level dictionary
OperationFactory._operations (operations.py lines 115 to 122). -/
def OperationFactory.operationsDict : List (String × PyClass) :=
  [("add", ⟨"Addition", true⟩),
   ("subtract", ⟨"Subtraction", true⟩),
   ("multiply", ⟨"Multiplication", true⟩),
   ("divide", ⟨"Division", true⟩),
   ("power", ⟨"Power", true⟩),
   ("root", ⟨"Root", true⟩)]

/-- Embedding of OperationFactory.register_operation (lines 124 to 135):
reject classes that do not inherit from Operation with TypeError, else
store the class under the lowercased name, silently replacing any previous
binding.  The mutable class-level dictionary is threaded explicitly. -/
def OperationFactory.register_operation (ops : List (String × PyClass))
    (name : String) (operation_class : PyClass) :
    Except PyError (List (String × PyClass)) :=
  if !operation_class.inheritsOperation then
    .error (.typeError "Operation class must inherit from Operation")
  else
    .ok (dictSet ops name.toLower operation_class)

/-- Embedding of OperationFactory.create_operation (lines 137 to 154): the
body reads cls.operations, but the class attribute is spelled _operations
(line 115); the access to the missing attribute raises AttributeError
before the dictionary is consulted, for every argument and every registry
state. -/
def OperationFactory.create_operation (_ops : List (String × PyClass))
    (_operation_type : String) : Except PyError PyClass :=
  .error (.attributeError "operations")

/-- Modelled from the spec: the file app/calculator.py holding the
Calculator orchestrator (HistoryEngine of spec section 4.4) is absent from
src/, where only its unit tests appear.  State per the spec: the bounded
record list, the undo and redo stacks (lists whose head is the top of the
stack), and the configured bound. -/
structure HistoryEngine where
  max_history_size : Nat
  records : List calculatorOperations
  undo_stack : List calculatorOperations
  redo_stack : List calculatorOperations
deriving DecidableEq

/-- Modelled from the spec: fresh engine with the given bound and all three
collections empty. -/
def HistoryEngine.mkEngine (maxSize : Nat) : HistoryEngine :=
  ⟨maxSize, [], [], []⟩

/-- Modelled from the spec: append a record to the history, evicting the
oldest entry (index 0) when the length exceeds the bound (spec section 4.4
perform step 3, and the redo re-append). -/
def HistoryEngine.appendEvict (maxSize : Nat) (rs : List calculatorOperations)
    (r : calculatorOperations) : List calculatorOperations :=
  let rs2 := rs ++ [r]
  if maxSize < rs2.length then rs2.drop 1 else rs2

/-- Modelled from the spec: the mutation step of a successful perform call
(spec section 4.4 step 3) — append the freshly built record with eviction,
push an add action referencing the record onto undo_stack, clear
redo_stack.  Input validation, strategy dispatch and observer notification
precede or follow this step and do not touch the three collections, so the
model starts from the point where computation succeeded. -/
def HistoryEngine.performRecord (e : HistoryEngine) (r : calculatorOperations) :
    HistoryEngine :=
  { e with
    records := HistoryEngine.appendEvict e.max_history_size e.records r
    undo_stack := r :: e.undo_stack
    redo_stack := [] }

/-- Modelled from the spec: a sequence of successful perform calls, applied
left to right. -/
def HistoryEngine.performAll (e : HistoryEngine) (rs : List calculatorOperations) :
    HistoryEngine :=
  rs.foldl HistoryEngine.performRecord e

/-- Removal of the last occurrence of a record, modelling removal by
identity of the record an add action references: with add-only actions the
record sits at the tail of the history. -/
def HistoryEngine.removeLastOcc (rs : List calculatorOperations)
    (r : calculatorOperations) : List calculatorOperations :=
  (rs.reverse.erase r).reverse

/-- Modelled from the spec: undo (spec section 4.4) — on an empty
undo_stack return false leaving the state unchanged; else pop the most
recent action, remove the corresponding record from records, push the
action onto redo_stack and return true. -/
def HistoryEngine.undo (e : HistoryEngine) : Bool × HistoryEngine :=
  match e.undo_stack with
  | [] => (false, e)
  | a :: rest =>
      (true,
       { e with
         records := HistoryEngine.removeLastOcc e.records a
         undo_stack := rest
         redo_stack := a :: e.redo_stack })

/-- Modelled from the spec: redo (spec section 4.4) — on an empty
redo_stack return false leaving the state unchanged; else pop, re-append
the record to the tail of records re-applying eviction, push the action
back onto undo_stack and return true. -/
def HistoryEngine.redo (e : HistoryEngine) : Bool × HistoryEngine :=
  match e.redo_stack with
  | [] => (false, e)
  | a :: rest =>
      (true,
       { e with
         records := HistoryEngine.appendEvict e.max_history_size e.records a
         undo_stack := a :: e.undo_stack
         redo_stack := rest })


/-! Helper lemmas shared by the claim theorems. -/

/-- Errors of floatPow are the uncaught TypeError of the complex corner or
the ArithmeticError of the zero-to-negative-power corner. -/
lemma floatPow_error_kinds (x y : ℚ) (e : PyError) (h : floatPow x y = .error e) :
    (∃ m, e = .typeError m) ∨ (∃ m, e = .arithmeticError m) := by
  unfold floatPow at h
  split_ifs at h
  all_goals injection h with h1
  · exact .inl ⟨_, h1.symm⟩
  · exact .inr ⟨_, h1.symm⟩

/-- The try/except applied to a floatPow call can only raise the
OperationError conversion of its ArithmeticError or its uncaught
TypeError. -/
lemma calcCatch_floatPow_error (x y : ℚ) (e : PyError)
    (h : calcCatch (floatPow x y) = .error e) :
    (∃ m, e = .operationError m) ∨ (∃ m, e = .typeError m) := by
  unfold floatPow at h
  split_ifs at h
  · exact .inr ⟨_, (Except.error.inj h).symm⟩
  · exact .inl ⟨_, (Except.error.inj h).symm⟩
  · exact absurd h (by simp [calcCatch])
  · exact absurd h (by simp [calcCatch])

/-- Every error raised by calculatorOperations.calculate is an
OperationError (unknown names, the _raise helpers, and caught arithmetic
errors) or the uncaught TypeError of the complex-to-Decimal corner of
Power; in particular it is never a ValidationError. -/
lemma calculate_error_kinds (operation : String) (x y : ℚ) (e : PyError)
    (h : calculatorOperations.calculate operation x y = .error e) :
    (∃ m, e = .operationError m) ∨ (∃ m, e = .typeError m) := by
  simp only [calculatorOperations.calculate] at h
  split_ifs at h
  · exact absurd h (by simp [calcCatch])
  · exact absurd h (by simp [calcCatch])
  · exact absurd h (by simp [calcCatch])
  · exact absurd h (by simp [calcCatch])
  · exact .inl ⟨_, (Except.error.inj h).symm⟩
  · exact calcCatch_floatPow_error _ _ _ h
  · exact .inl ⟨_, (Except.error.inj h).symm⟩
  · exact calcCatch_floatPow_error _ _ _ h
  · exact .inl ⟨_, (Except.error.inj h).symm⟩
  · exact .inl ⟨_, (Except.error.inj h).symm⟩
  · exact .inl ⟨_, (Except.error.inj h).symm⟩
  · exact .inl ⟨_, (Except.error.inj h).symm⟩

/-- Construction succeeds exactly when calculate succeeds, storing its
value in the result field and the inputs in the remaining fields. -/
lemma ofInputs_ok (operation : String) (x y : ℚ) (ts : Int) (c : calculatorOperations)
    (h : calculatorOperations.ofInputs operation x y ts = .ok c) :
    calculatorOperations.calculate operation x y = .ok c.result ∧
      c.operation = operation ∧ c.operand1 = x ∧ c.operand2 = y ∧ c.timestamp = ts := by
  unfold calculatorOperations.ofInputs at h
  split at h
  · exact absurd h (by simp)
  · rename_i r hr
    injection h with h1
    subst h1
    exact ⟨hr, rfl, rfl, rfl, rfl⟩

/-- Construction propagates the error of calculate unchanged. -/
lemma ofInputs_error (operation : String) (x y : ℚ) (ts : Int) (e : PyError)
    (h : calculatorOperations.ofInputs operation x y ts = .error e) :
    calculatorOperations.calculate operation x y = .error e := by
  unfold calculatorOperations.ofInputs at h
  split at h
  · rename_i e0 he
    injection h with h1
    subst h1
    exact he
  · exact absurd h (by simp)

/-- The six operation names known to the dispatch table of calculate. -/
def knownOperationNames : List String :=
  ["Addition", "Subtraction", "Multiplication", "Division", "Power", "Root"]

/-! Claim theorems. -/

/-- C1: the claim states that from_dict (to_dict r) succeeds and returns a
record equal to r.  In the source the serializer writes the operation under
the misspelled key opperation while the deserializer reads the key
operation, so the round trip fails with OperationError for every record;
the repository test test_to_dict expects the key operation, so the code
contradicts its own tests. -/
theorem roundtrip_key_mismatch (c : calculatorOperations) :
    calculatorOperations.from_dict (calculatorOperations.to_dict c) =
      .error (.operationError "Invalid calculation data: operation") := rfl

/-- C2: the claim states that a zero divisor makes Division fail with
ValidationError pre-empting computation.  In the source the zero-divisor
check is a duplicate def of execute shadowed by the real execute, so
Division validation is a no-op and execute 6 0 reaches the Decimal
division, which raises decimal.DivisionByZero (an ArithmeticError), not
ValidationError; the repository test test_division_by_zero expects
ValidationError.  Power and Root validation and the no-op validation of
the remaining operations behave as the claim states. -/
theorem division_validation_shadowed :
    Operation.validate_operands .Division 6 0 = .ok () ∧
    Operation.execute .Division 6 0 = .error (.arithmeticError "DivisionByZero") ∧
    (∀ a b : ℚ,
      Operation.validate_operands .Addition a b = .ok () ∧
      Operation.validate_operands .Subtraction a b = .ok () ∧
      Operation.validate_operands .Multiplication a b = .ok ()) ∧
    Operation.execute .Power 2 (-1) = .error (.validationError "Negative exponents are not allowed") ∧
    Operation.execute .Root (-16) 2 = .error (.validationError "Root of negative number cannot be calculated") ∧
    Operation.execute .Root 16 0 = .error (.validationError "Zero root is undefined") :=
  ⟨rfl, rfl, fun _ _ => ⟨rfl, rfl, rfl⟩, rfl, rfl, rfl⟩

/-- C5: the claim states that create_operation performs a case-insensitive
lookup returning an instance for registered names and raises an
unknown-operation ValueError otherwise.  In the source the body reads
cls.operations while the class attribute is spelled _operations, so every
call raises AttributeError before any lookup, for registered and
unregistered names alike; the repository tests expect instances and
ValueError respectively. -/
theorem create_operation_attribute_failure
    (ops : List (String × PyClass)) (name : String) :
    OperationFactory.create_operation ops name = .error (.attributeError "operations") := rfl

/-- C10: the claim states that converting any concrete Operation to its
display string returns its identifying tag and does not fail.  In the
source __str__ returns self._class_._name_ with single underscores, an
attribute no instance has, so every conversion raises AttributeError; the
repository test test_operation_str expects the class names. -/
theorem str_operation_raises (k : Operation) :
    Operation.str k = .error (.attributeError "_class_") := rfl

/-- Lookup after a dict assignment finds the assigned value. -/
lemma lookup_dictSet (d : List (String × PyClass)) (k : String) (v : PyClass) :
    (dictSet d k v).lookup k = some v := by
  induction d with
  | nil => simp [dictSet, List.lookup]
  | cons p rest ih =>
      obtain ⟨k0, v0⟩ := p
      by_cases h : k0 = k
      · subst h
        simp [dictSet, List.lookup]
      · have hb : (k == k0) = false := by
          simp only [beq_eq_false_iff_ne, ne_eq]
          exact fun hc => h hc.symm
        simp [dictSet, h, List.lookup, hb, ih]

/-- C6: register_operation rejects classes that do not inherit from
Operation with TypeError; registering an already-present name silently
replaces the binding, so the registry maps the lowercased name to the
last-registered class.  The final part of the claim, that a subsequent
create_operation call yields that class, fails on the code: create reads
the misspelled attribute cls.operations and raises AttributeError (the
repository test registers a dummy class and expects create to return an
instance of it). -/
theorem register_overwrite_and_create :
    (∀ (ops : List (String × PyClass)) (name : String) (c : PyClass),
        c.inheritsOperation = false →
        OperationFactory.register_operation ops name c =
          .error (.typeError "Operation class must inherit from Operation")) ∧
    (∀ (ops ops1 ops2 : List (String × PyClass)) (name : String) (c1 c2 : PyClass),
        OperationFactory.register_operation ops name c1 = .ok ops1 →
        OperationFactory.register_operation ops1 name c2 = .ok ops2 →
        ops2.lookup name.toLower = some c2) ∧
    (∀ (ops : List (String × PyClass)) (name : String),
        OperationFactory.create_operation ops name = .error (.attributeError "operations")) := by
  refine ⟨?_, ?_, fun _ _ => rfl⟩
  · intro ops name c hc
    simp [OperationFactory.register_operation, hc]
  · intro ops ops1 ops2 name c1 c2 h1 h2
    unfold OperationFactory.register_operation at h1 h2
    split_ifs at h1 h2
    injection h2 with h2
    subst h2
    exact lookup_dictSet ops1 name.toLower c2

/-- Witness for C6 at concrete inputs: a class not inheriting from
Operation is rejected; registering dummy twice leaves the last class in
the registry; create_operation still fails with AttributeError. -/
theorem register_overwrite_witness :
    OperationFactory.register_operation OperationFactory.operationsDict "invalid"
        ⟨"InvalidOperation", false⟩ =
      .error (.typeError "Operation class must inherit from Operation") ∧
    (dictSet (dictSet OperationFactory.operationsDict "dummy".toLower ⟨"DummyA", true⟩)
        "dummy".toLower ⟨"DummyB", true⟩).lookup "dummy".toLower = some ⟨"DummyB", true⟩ ∧
    OperationFactory.create_operation OperationFactory.operationsDict "dummy" =
      .error (.attributeError "operations") :=
  ⟨register_overwrite_and_create.1 OperationFactory.operationsDict "invalid"
      ⟨"InvalidOperation", false⟩ rfl,
   register_overwrite_and_create.2.1 OperationFactory.operationsDict _ _ "dummy"
      ⟨"DummyA", true⟩ ⟨"DummyB", true⟩ rfl rfl,
   register_overwrite_and_create.2.2 OperationFactory.operationsDict "dummy"⟩

/-- C7: direct record construction with an unknown operation name or a
domain violation raises OperationError, not the ValidationError of the
live Operation path: each checked domain violation (zero divisor,
negative exponent, zero root-index, negative root base) raises the
OperationError of its _raise helper, unknown names raise the
unknown-operation OperationError, and no error the constructor can raise
is ever a ValidationError (the remaining errors are the OperationError
conversions of the except clause and the uncaught TypeError of the
float-complex corner, neither of which is ValidationError). -/
theorem direct_construction_operation_error :
    (∀ (x : ℚ) (ts : Int),
        calculatorOperations.ofInputs "Division" x 0 ts =
          .error (.operationError "Division by zero is not allowed")) ∧
    (∀ (x y : ℚ) (ts : Int), y < 0 →
        calculatorOperations.ofInputs "Power" x y ts =
          .error (.operationError "Negative exponents are not supported")) ∧
    (∀ (x : ℚ) (ts : Int),
        calculatorOperations.ofInputs "Root" x 0 ts =
          .error (.operationError "Zero root is undefined")) ∧
    (∀ (x y : ℚ) (ts : Int), x < 0 → y ≠ 0 →
        calculatorOperations.ofInputs "Root" x y ts =
          .error (.operationError "Cannot calculate root of negative number")) ∧
    (∀ (operation : String) (x y : ℚ) (ts : Int),
        operation ∉ knownOperationNames →
        calculatorOperations.ofInputs operation x y ts =
          .error (.operationError ("Unknown Operation: " ++ operation))) ∧
    (∀ (operation : String) (x y : ℚ) (ts : Int) (e : PyError) (msg : String),
        calculatorOperations.ofInputs operation x y ts = .error e →
        e ≠ .validationError msg) := by
  refine ⟨fun _ _ => rfl, ?_, ?_, ?_, ?_, ?_⟩
  · intro x y ts hy
    have key : calculatorOperations.ofInputs "Power" x y ts =
        (match calcCatch
            (if 0 ≤ y then floatPow x y
             else .error (.operationError "Negative exponents are not supported")) with
         | .error e => .error e
         | .ok r => .ok (⟨"Power", x, y, r, ts⟩ : calculatorOperations)) := rfl
    rw [key, if_neg (not_le.mpr hy)]
    rfl
  · intro x ts
    have key : calculatorOperations.ofInputs "Root" x 0 ts =
        (match calcCatch
            (if 0 ≤ x ∧ (0 : ℚ) ≠ 0 then floatPow x (1 / 0)
             else if (0 : ℚ) = 0 then .error (.operationError "Zero root is undefined")
             else if x < 0 then .error (.operationError "Cannot calculate root of negative number")
             else .error (.operationError "Invalid root operation")) with
         | .error e => .error e
         | .ok r => .ok (⟨"Root", x, 0, r, ts⟩ : calculatorOperations)) := rfl
    rw [key, if_neg (by simp : ¬ (0 ≤ x ∧ (0 : ℚ) ≠ 0))]
    rfl
  · intro x y ts hx hy
    have key : calculatorOperations.ofInputs "Root" x y ts =
        (match calcCatch
            (if 0 ≤ x ∧ y ≠ 0 then floatPow x (1 / y)
             else if y = 0 then .error (.operationError "Zero root is undefined")
             else if x < 0 then .error (.operationError "Cannot calculate root of negative number")
             else .error (.operationError "Invalid root operation")) with
         | .error e => .error e
         | .ok r => .ok (⟨"Root", x, y, r, ts⟩ : calculatorOperations)) := rfl
    have h1 : ¬ (0 ≤ x ∧ y ≠ 0) := fun hc => absurd hx (not_lt.mpr hc.1)
    rw [key, if_neg h1, if_neg hy, if_pos hx]
    rfl
  · intro operation x y ts hop
    have h1 : ¬ operation = "Addition" := fun h => hop (by rw [h]; decide)
    have h2 : ¬ operation = "Subtraction" := fun h => hop (by rw [h]; decide)
    have h3 : ¬ operation = "Multiplication" := fun h => hop (by rw [h]; decide)
    have h4 : ¬ operation = "Division" := fun h => hop (by rw [h]; decide)
    have h5 : ¬ operation = "Power" := fun h => hop (by rw [h]; decide)
    have h6 : ¬ operation = "Root" := fun h => hop (by rw [h]; decide)
    simp [calculatorOperations.ofInputs, calculatorOperations.calculate,
      h1, h2, h3, h4, h5, h6]
  · intro operation x y ts e msg h
    rcases calculate_error_kinds operation x y e (ofInputs_error _ _ _ _ _ h) with
      ⟨m, hm⟩ | ⟨m, hm⟩
    all_goals subst hm
    all_goals intro hc
    all_goals exact PyError.noConfusion hc

/-- Witness for C7 at concrete inputs: constructing a record with the
unregistered name UnknownOp fails with the unknown-operation
OperationError, and a negative exponent fails with its domain
OperationError. -/
theorem direct_construction_witness :
    calculatorOperations.ofInputs "UnknownOp" 2 3 0 =
      .error (.operationError ("Unknown Operation: " ++ "UnknownOp")) ∧
    calculatorOperations.ofInputs "Power" 2 (-1) 0 =
      .error (.operationError "Negative exponents are not supported") :=
  ⟨direct_construction_operation_error.2.2.2.2.1 "UnknownOp" 2 3 0 (by decide),
   direct_construction_operation_error.2.1 2 (-1) 0 (by decide)⟩

/-- C8: for a well-formed persisted mapping whose stored result differs
from the recomputed one, from_dict succeeds, returns the record carrying
the recomputed result and the restored timestamp, and logs the non-fatal
mismatch warning (the Bool component) instead of raising. -/
theorem from_dict_mismatch_warns (operation : String) (x y r res : ℚ) (ts : Int)
    (hc : calculatorOperations.calculate operation x y = .ok res) (hne : res ≠ r) :
    calculatorOperations.from_dict (mkData operation x y r ts) =
      .ok (⟨operation, x, y, res, ts⟩, true) := by
  have key : calculatorOperations.from_dict (mkData operation x y r ts) =
      (match calculatorOperations.ofInputs operation x y 0 with
       | .error e => .error e
       | .ok c0 => .ok ({ c0 with timestamp := ts },
                        if c0.result = r then false else true)) := rfl
  have hof : calculatorOperations.ofInputs operation x y 0 = .ok ⟨operation, x, y, res, 0⟩ := by
    unfold calculatorOperations.ofInputs
    rw [hc]
  rw [key, hof]
  simp [hne]

/-- Witness for C8 at a concrete input: the stored result 6 differs from
the recomputed 2 + 3, so loading succeeds with the recomputed result and
the warning flag set. -/
theorem from_dict_mismatch_witness :
    calculatorOperations.from_dict (mkData "Addition" 2 3 6 0) =
      .ok (⟨"Addition", 2, 3, (2 : ℚ) + 3, 0⟩, true) :=
  from_dict_mismatch_warns "Addition" 2 3 6 (2 + 3) 0 rfl (by norm_num)

/-- C9: every successfully constructed record carries in its result field
the value calculate produces from its operation and operands: directly
constructed records store the inputs and the computed result, and records
produced by from_dict (the only other producer, which overwrites only the
timestamp afterwards) still satisfy the same equation. -/
theorem record_result_invariant :
    (∀ (operation : String) (x y : ℚ) (ts : Int) (c : calculatorOperations),
        calculatorOperations.ofInputs operation x y ts = .ok c →
        calculatorOperations.calculate operation x y = .ok c.result ∧
          c.operation = operation ∧ c.operand1 = x ∧ c.operand2 = y) ∧
    (∀ (data : List (String × DVal)) (c : calculatorOperations) (w : Bool),
        calculatorOperations.from_dict data = .ok (c, w) →
        calculatorOperations.calculate c.operation c.operand1 c.operand2 = .ok c.result) := by
  constructor
  · intro operation x y ts c h
    obtain ⟨h1, h2, h3, h4, _⟩ := ofInputs_ok operation x y ts c h
    exact ⟨h2 ▸ h1, h2, h3, h4⟩
  · intro data c w h
    unfold calculatorOperations.from_dict at h
    split at h
    · simp at h
    · split at h
      · simp at h
      · split at h
        · simp at h
        · split at h
          · simp at h
          · rename_i opv x hx y hy c0 heq
            split at h
            · simp at h
            · split at h
              · simp at h
              · rename_i ts hts saved hsaved
                injection h with hpair
                obtain ⟨hc, _⟩ := Prod.mk.inj hpair
                subst hc
                obtain ⟨h1, h2, h3, h4, _⟩ := ofInputs_ok _ _ _ _ _ heq
                simp only [h2, h3, h4]
                exact h1

/-- Witness for C9 at a concrete input: a successfully constructed
Addition record carries the computed sum as its result. -/
theorem record_result_witness :
    calculatorOperations.calculate "Addition" 2 3 = .ok ((2 : ℚ) + 3) :=
  (record_result_invariant.1 "Addition" 2 3 0 ⟨"Addition", 2, 3, 2 + 3, 0⟩ rfl).1

/-- Appending a sequence of perform calls splits on the last one. -/
lemma performAll_append_one (e : HistoryEngine) (rs : List calculatorOperations)
    (r : calculatorOperations) :
    HistoryEngine.performAll e (rs ++ [r]) =
      HistoryEngine.performRecord (HistoryEngine.performAll e rs) r := by
  simp [HistoryEngine.performAll, List.foldl_append]

/-- Perform calls leave the configured bound unchanged. -/
lemma performAll_max (e : HistoryEngine) (rs : List calculatorOperations) :
    (HistoryEngine.performAll e rs).max_history_size = e.max_history_size := by
  induction rs generalizing e with
  | nil => rfl
  | cons r rest ih =>
      show (HistoryEngine.performAll (HistoryEngine.performRecord e r) rest).max_history_size = _
      rw [ih]
      rfl

/-- Characterization of the history after a sequence of perform calls from
a fresh engine with positive bound: exactly the most recent entries, in
order, namely the performed sequence with its oldest overflow dropped. -/
lemma performAll_records (m : Nat) (hm : 0 < m) (rs : List calculatorOperations) :
    (HistoryEngine.performAll (HistoryEngine.mkEngine m) rs).records =
      rs.drop (rs.length - m) := by
  induction rs using List.reverseRecOn with
  | nil => simp [HistoryEngine.performAll, HistoryEngine.mkEngine]
  | append_singleton xs r ih =>
      rw [performAll_append_one]
      have hmax : (HistoryEngine.performAll (HistoryEngine.mkEngine m) xs).max_history_size = m :=
        (performAll_max _ _).trans rfl
      have hrec : (HistoryEngine.performRecord
            (HistoryEngine.performAll (HistoryEngine.mkEngine m) xs) r).records =
          HistoryEngine.appendEvict m (xs.drop (xs.length - m)) r := by
        simp only [HistoryEngine.performRecord]
        rw [hmax, ih]
      rw [hrec]
      unfold HistoryEngine.appendEvict
      by_cases hlen : xs.length < m
      · have h0 : xs.length - m = 0 := by omega
        have h1 : (xs ++ [r]).length - m = 0 := by
          simp only [List.length_append, List.length_singleton]
          omega
        have hno : ¬ m < (xs.drop (xs.length - m) ++ [r]).length := by
          simp only [List.length_append, List.length_drop, List.length_singleton]
          omega
        rw [if_neg hno, h0, h1]
        simp
      · have hdl : (xs.drop (xs.length - m)).length = m := by
          rw [List.length_drop]
          omega
        have hyes : m < (xs.drop (xs.length - m) ++ [r]).length := by
          simp only [List.length_append, hdl, List.length_singleton]
          omega
        rw [if_pos hyes]
        have hsplit : (xs.drop (xs.length - m) ++ [r]).drop 1 =
            (xs.drop (xs.length - m)).drop 1 ++ [r].drop (1 - m) := by
          rw [List.drop_append_eq_append_drop, hdl]
        have h1m : 1 - m = 0 := by omega
        rw [hsplit, h1m, List.drop_drop]
        have htarget : (xs ++ [r]).drop ((xs ++ [r]).length - m) =
            xs.drop ((xs ++ [r]).length - m) ++ [r].drop ((xs ++ [r]).length - m - xs.length) := by
          rw [List.drop_append_eq_append_drop]
        rw [htarget]
        have hidx : (xs ++ [r]).length - m = xs.length - m + 1 := by
          simp only [List.length_append, List.length_singleton]
          omega
        have hidx2 : (xs ++ [r]).length - m - xs.length = 0 := by
          simp only [List.length_append, List.length_singleton]
          omega
        rw [hidx]
        have hz : xs.length - m + 1 - xs.length = 0 := by omega
        rw [hz]

/-- C3: with positive bound and more performs than the bound, the history
length never exceeds the bound after any prefix of the mutations, and the
final history holds exactly the most recent max_history_size records in
chronological order, the oldest having been evicted first. -/
theorem history_bound_fifo (m : Nat) (rs : List calculatorOperations)
    (hm : 0 < m) (hN : m < rs.length) :
    (∀ i : Nat,
        ((HistoryEngine.performAll (HistoryEngine.mkEngine m) (rs.take i)).records).length ≤ m) ∧
    (HistoryEngine.performAll (HistoryEngine.mkEngine m) rs).records =
      rs.drop (rs.length - m) ∧
    ((HistoryEngine.performAll (HistoryEngine.mkEngine m) rs).records).length = m := by
  refine ⟨?_, performAll_records m hm rs, ?_⟩
  · intro i
    rw [performAll_records m hm, List.length_drop]
    omega
  · rw [performAll_records m hm, List.length_drop]
    omega

/-- Sample records for the concrete history scenarios. -/
def recA : calculatorOperations := ⟨"Addition", 1, 1, 2, 0⟩

/-- Second sample record. -/
def recB : calculatorOperations := ⟨"Addition", 2, 2, 4, 0⟩

/-- Third sample record. -/
def recC : calculatorOperations := ⟨"Addition", 3, 3, 6, 0⟩

/-- Witness for C3 at the concrete scenario of the spec: bound 2, three
performs, history ends as the last two records in order. -/
theorem history_bound_witness :
    (HistoryEngine.performAll (HistoryEngine.mkEngine 2) [recA, recB, recC]).records =
      [recA, recB, recC].drop 1 ∧
    ((HistoryEngine.performAll (HistoryEngine.mkEngine 2) [recA, recB, recC]).records).length = 2 :=
  ⟨(history_bound_fifo 2 [recA, recB, recC] (by decide) (by decide)).2.1,
   (history_bound_fifo 2 [recA, recB, recC] (by decide) (by decide)).2.2⟩

/-- Removing the record an add action references from a history whose tail
is that record recovers the prefix. -/
lemma removeLastOcc_append (xs : List calculatorOperations) (a : calculatorOperations) :
    HistoryEngine.removeLastOcc (xs ++ [a]) a = xs := by
  unfold HistoryEngine.removeLastOcc
  rw [List.reverse_append]
  simp [List.erase_cons_head]

/-- C4: when the popped action references the tail record and no eviction
can intervene (the history is within the bound, so the redo re-append does
not evict), undo followed by redo returns true twice and restores records
to its pre-undo content in order; undo on an empty undo_stack returns
false leaving the state unchanged, and redo on an empty redo_stack is
symmetric. -/
theorem undo_redo_restores :
    (∀ (e : HistoryEngine) (a : calculatorOperations) (rest xs : List calculatorOperations),
        e.undo_stack = a :: rest →
        e.records = xs ++ [a] →
        e.records.length ≤ e.max_history_size →
        (HistoryEngine.undo e).1 = true ∧
        (HistoryEngine.redo (HistoryEngine.undo e).2).1 = true ∧
        (HistoryEngine.redo (HistoryEngine.undo e).2).2.records = e.records) ∧
    (∀ e : HistoryEngine, e.undo_stack = [] → HistoryEngine.undo e = (false, e)) ∧
    (∀ e : HistoryEngine, e.redo_stack = [] → HistoryEngine.redo e = (false, e)) := by
  refine ⟨?_, ?_, ?_⟩
  · intro e a rest xs hu hr hlen
    have h1 : HistoryEngine.undo e =
        (true,
         { e with
           records := HistoryEngine.removeLastOcc e.records a
           undo_stack := rest
           redo_stack := a :: e.redo_stack }) := by
      unfold HistoryEngine.undo
      rw [hu]
    rw [h1]
    refine ⟨rfl, rfl, ?_⟩
    show HistoryEngine.appendEvict e.max_history_size
        (HistoryEngine.removeLastOcc e.records a) a = e.records
    rw [hr, removeLastOcc_append]
    unfold HistoryEngine.appendEvict
    rw [hr] at hlen
    have hlt : ¬ e.max_history_size < (xs ++ [a]).length := by omega
    rw [if_neg hlt]
  · intro e he
    unfold HistoryEngine.undo
    rw [he]
  · intro e he
    unfold HistoryEngine.redo
    rw [he]

/-- Sample record for the undo and redo scenario. -/
def recW : calculatorOperations := ⟨"Addition", 2, 3, 5, 0⟩

/-- Witness for C4 at the concrete scenario of the spec: one record in the
history, undo then redo restores it; the empty-stack cases return false
and change nothing. -/
theorem undo_redo_witness :
    (HistoryEngine.undo ⟨10, [recW], [recW], []⟩).1 = true ∧
    (HistoryEngine.redo (HistoryEngine.undo ⟨10, [recW], [recW], []⟩).2).1 = true ∧
    (HistoryEngine.redo (HistoryEngine.undo ⟨10, [recW], [recW], []⟩).2).2.records =
      ([recW] : List calculatorOperations) ∧
    HistoryEngine.undo ⟨10, [], [], []⟩ = (false, ⟨10, [], [], []⟩) ∧
    HistoryEngine.redo ⟨10, [], [], []⟩ = (false, ⟨10, [], [], []⟩) :=
  ⟨(undo_redo_restores.1 ⟨10, [recW], [recW], []⟩ recW [] [] rfl rfl (by decide)).1,
   (undo_redo_restores.1 ⟨10, [recW], [recW], []⟩ recW [] [] rfl rfl (by decide)).2.1,
   (undo_redo_restores.1 ⟨10, [recW], [recW], []⟩ recW [] [] rfl rfl (by decide)).2.2,
   undo_redo_restores.2.1 ⟨10, [], [], []⟩ rfl,
   undo_redo_restores.2.2 ⟨10, [], [], []⟩ rfl⟩
